import Mathlib

/-!
# Verification of the Profile Authenticity Scoring Engine

Shallow embedding of the feature-extraction pipeline, the rule-based
fallback scorer and the enhanced red-flag detector of the `dev-sentinel`
repository (`backend/services/trained_ml_analyzer.py`,
`backend/enhanced_red_flags.py`), together with theorems settling the
spec claims about them.

Modelling conventions:
* Python floats are modelled as exact field arithmetic (`ℚ` for the
  downstream consumers that are quantified over feature vectors, `ℝ` for
  the extractor, whose `np.std` and `log2` produce irrational values).
* A commit's `date` string is modelled as `Option CDate`: `none` stands
  for a malformed / unparsable timestamp (every use of the string in the
  source is parse-or-except).
* `datetime.weekday()` is 0 = Monday .. 6 = Sunday, `datetime.hour` is
  0..23; both are guaranteed by the Python datetime library, hence
  `Fin 7` / `Fin 24`.
* `RedFlag.title/description/details` are presentation-only strings and
  are not modelled; a flag is its stable `id` plus its `severity`.
* `datetime.now()` (used only by `_is_recently_active`, in units of
  days) is passed explicitly as the `now : ℤ` parameter.
-/

/-- Severity grades of a red flag, as used by `models/analysis_models.py`. -/
inductive Severity where
  | low
  | medium
  | high
  | critical
deriving DecidableEq, Repr

/-- Rank of a severity for comparisons: low < medium < high < critical. -/
def Severity.rank : Severity → ℕ
  | .low => 1
  | .medium => 2
  | .high => 3
  | .critical => 4

/-- A red flag: stable machine id and severity grade (the free-text
fields of the source's `RedFlag` model carry no logic and are omitted). -/
structure RedFlag where
  id : String
  severity : Severity
deriving DecidableEq, Repr

/-- A parsed commit timestamp: the projections of the `datetime` object
that `trained_ml_analyzer.py` reads.  `week` is `isocalendar()[1]`,
`day` is the `'%Y-%m-%d'` key used for daily grouping. -/
structure CDate where
  weekday : Fin 7
  hour : Fin 24
  week : ℕ
  day : ℤ
deriving DecidableEq, Repr

/-- A commit record of the raw snapshot.  `date = none` models a
malformed / unparsable timestamp string. -/
structure Commit where
  date : Option CDate
  additions : ℕ
  deletions : ℕ
  message : String
deriving DecidableEq, Repr

/-- A repository record of the raw snapshot.  `updated_at` is the parsed
update time in days (`none` = malformed); `language = none` models a
missing / null language field. -/
structure Repo where
  name : String
  fork : Bool
  size : ℕ
  stargazers_count : ℕ
  forks_count : ℕ
  open_issues_count : ℕ
  language : Option String
  updated_at : Option ℤ
  archived : Bool
  has_releases : Bool
  description : String
deriving DecidableEq, Repr

/-- The account / user section of the raw snapshot (profile text fields
plus social counts).  Python truthiness of a text field is `≠ ""`. -/
structure UserData where
  name : String
  bio : String
  location : String
  company : String
  blog : String
  email : String
  avatar_url : String
  followers : ℕ
  following : ℕ
  public_repos : ℕ
deriving DecidableEq, Repr

/-- The `RawActivitySnapshot`: the `github_data` dict consumed by
`TrainedMLAnalyzer.analyze_profile`. -/
structure Snapshot where
  commits : List Commit
  repositories : List Repo
  user : UserData
  account_age_days : ℕ
deriving DecidableEq, Repr

/-- The feature vector produced by `TrainedMLAnalyzer._extract_features`
(the 24 keys of the returned dict, in source order), parameterised by
the numeric carrier. -/
structure Features (α : Type) where
  commit_frequency : α
  weekend_commit_ratio : α
  night_commit_ratio : α
  original_repo_ratio : α
  commit_size_variance : α
  activity_consistency : α
  follower_repo_ratio : α
  follower_following_ratio : α
  language_diversity : α
  avg_stars_per_repo : α
  avg_forks_per_repo : α
  repo_activity_ratio : α
  commit_msg_quality : α
  repo_size_variance : α
  issue_engagement : α
  account_maturity : α
  timing_entropy : α
  repo_naming_quality : α
  contribution_diversity : α
  profile_completeness : α
  collaboration_score : α
  code_quality_score : α
  burst_activity_score : α
  maintenance_score : α
deriving DecidableEq, Repr

/-- The key list of the features dict, in the order of the source's
return statement. -/
def featureKeys : List String :=
  ["commit_frequency", "weekend_commit_ratio", "night_commit_ratio",
   "original_repo_ratio", "commit_size_variance", "activity_consistency",
   "follower_repo_ratio", "follower_following_ratio", "language_diversity",
   "avg_stars_per_repo", "avg_forks_per_repo", "repo_activity_ratio",
   "commit_msg_quality", "repo_size_variance", "issue_engagement",
   "account_maturity", "timing_entropy", "repo_naming_quality",
   "contribution_diversity", "profile_completeness", "collaboration_score",
   "code_quality_score", "burst_activity_score", "maintenance_score"]

/-- The features dict as an association list (mirrors the dict literal
returned by `_extract_features`). -/
def Features.toDict {α : Type} (f : Features α) : List (String × α) :=
  [("commit_frequency", f.commit_frequency),
   ("weekend_commit_ratio", f.weekend_commit_ratio),
   ("night_commit_ratio", f.night_commit_ratio),
   ("original_repo_ratio", f.original_repo_ratio),
   ("commit_size_variance", f.commit_size_variance),
   ("activity_consistency", f.activity_consistency),
   ("follower_repo_ratio", f.follower_repo_ratio),
   ("follower_following_ratio", f.follower_following_ratio),
   ("language_diversity", f.language_diversity),
   ("avg_stars_per_repo", f.avg_stars_per_repo),
   ("avg_forks_per_repo", f.avg_forks_per_repo),
   ("repo_activity_ratio", f.repo_activity_ratio),
   ("commit_msg_quality", f.commit_msg_quality),
   ("repo_size_variance", f.repo_size_variance),
   ("issue_engagement", f.issue_engagement),
   ("account_maturity", f.account_maturity),
   ("timing_entropy", f.timing_entropy),
   ("repo_naming_quality", f.repo_naming_quality),
   ("contribution_diversity", f.contribution_diversity),
   ("profile_completeness", f.profile_completeness),
   ("collaboration_score", f.collaboration_score),
   ("code_quality_score", f.code_quality_score),
   ("burst_activity_score", f.burst_activity_score),
   ("maintenance_score", f.maintenance_score)]

/-- Python's `int()` conversion: truncation toward zero. -/
def pyInt {α : Type} [LinearOrderedField α] [FloorRing α] (x : α) : ℤ :=
  if x < 0 then -⌊-x⌋ else ⌊x⌋

/-- Embeds `TrainedMLAnalyzer._predict_with_rules`: the rule-based fallback
scorer.  Returns `(authenticity_score, confidence)`; the score starts at
100, each threshold crossing subtracts its penalty, and the result is
truncated to int and clamped to [0, 100].  Confidence is the fixed 75. -/
def predict_with_rules {α : Type} [LinearOrderedField α] [FloorRing α]
    (features : Features α) : ℤ × ℤ :=
  let score : α := 100
  let score := if features.weekend_commit_ratio > 2/5 then
    score - (features.weekend_commit_ratio - 2/5) * 50 else score
  let score := if features.night_commit_ratio > 3/10 then
    score - (features.night_commit_ratio - 3/10) * 40 else score
  let score := if features.original_repo_ratio < 1/2 then
    score - (1/2 - features.original_repo_ratio) * 30 else score
  let score := if features.activity_consistency < 1/2 then
    score - (1/2 - features.activity_consistency) * 25 else score
  let score := if features.follower_repo_ratio < 1/10 ∨ features.follower_repo_ratio > 5 then
    score - 15 else score
  let score := if features.language_diversity < 2 then score - 10 else score
  let score := if features.commit_frequency < 5 ∨ features.commit_frequency > 100 then
    score - 20 else score
  (max 0 (min 100 (pyInt score)), 75)

section Penalties

variable {α : Type} [LinearOrderedField α]

/-- Weekend penalty of the fallback scorer. -/
def weekendPenalty (f : Features α) : α :=
  if f.weekend_commit_ratio > 2/5 then (f.weekend_commit_ratio - 2/5) * 50 else 0

/-- Night penalty of the fallback scorer. -/
def nightPenalty (f : Features α) : α :=
  if f.night_commit_ratio > 3/10 then (f.night_commit_ratio - 3/10) * 40 else 0

/-- Original-repository penalty of the fallback scorer. -/
def originalPenalty (f : Features α) : α :=
  if f.original_repo_ratio < 1/2 then (1/2 - f.original_repo_ratio) * 30 else 0

/-- Activity-consistency penalty of the fallback scorer. -/
def consistencyPenalty (f : Features α) : α :=
  if f.activity_consistency < 1/2 then (1/2 - f.activity_consistency) * 25 else 0

/-- Extreme-follower-ratio penalty of the fallback scorer. -/
def followerPenalty (f : Features α) : α :=
  if f.follower_repo_ratio < 1/10 ∨ f.follower_repo_ratio > 5 then 15 else 0

/-- Language-diversity penalty of the fallback scorer. -/
def languagePenalty (f : Features α) : α :=
  if f.language_diversity < 2 then 10 else 0

/-- Extreme-commit-frequency penalty of the fallback scorer. -/
def frequencyPenalty (f : Features α) : α :=
  if f.commit_frequency < 5 ∨ f.commit_frequency > 100 then 20 else 0

/-- Sum of all seven penalties actually applied by the code. -/
def totalPenalty (f : Features α) : α :=
  weekendPenalty f + nightPenalty f + originalPenalty f + consistencyPenalty f +
    followerPenalty f + languagePenalty f + frequencyPenalty f

end Penalties

/-- Conditional subtraction as subtraction of a conditional penalty. -/
theorem ite_sub_eq {α : Type} [LinearOrderedField α] (c : Prop) [Decidable c] (s p : α) :
    (if c then s - p else s) = s - (if c then p else 0) := by
  split_ifs <;> simp

/-- Closed form of the fallback scorer: 100 minus the sum of the seven
penalties, truncated and clamped. -/
theorem predict_with_rules_eq {α : Type} [LinearOrderedField α] [FloorRing α]
    (f : Features α) :
    predict_with_rules f = (max 0 (min 100 (pyInt (100 - totalPenalty f))), 75) := by
  simp only [predict_with_rules, ite_sub_eq, Prod.mk.injEq, and_true]
  congr 3
  unfold totalPenalty weekendPenalty nightPenalty originalPenalty
    consistencyPenalty followerPenalty languagePenalty frequencyPenalty
  ring

/-!
## Enhanced red-flag detector (`backend/enhanced_red_flags.py`)

Each analyzer builds its list of flags by appending the flag of every
check whose condition fires, in source order.  The numeric thresholds
are the entries of the `self.thresholds` table of
`EnhancedRedFlagDetector.__init__` (weekend 0.4/0.6/0.8, night
0.3/0.5/0.7, original 0.4/0.2/0.1, commit frequency 5/100/200, burst
0.6/0.4/0.2, follower 0.1/5/20), written as exact fractions.
-/

/-- Embeds `EnhancedRedFlagDetector._analyze_temporal_patterns`. -/
def analyze_temporal_patterns {α : Type} [LinearOrderedField α]
    (features : Features α) : List RedFlag :=
  (if features.weekend_commit_ratio > 4/5 then
      [⟨"extreme_weekend_activity", .critical⟩]
    else if features.weekend_commit_ratio > 3/5 then
      [⟨"high_weekend_activity", .high⟩]
    else if features.weekend_commit_ratio > 2/5 then
      [⟨"elevated_weekend_activity", .medium⟩]
    else []) ++
  (if features.night_commit_ratio > 7/10 then
      [⟨"extreme_night_activity", .critical⟩]
    else if features.night_commit_ratio > 1/2 then
      [⟨"high_night_activity", .high⟩]
    else []) ++
  (if features.timing_entropy < 3/10 then
      [⟨"low_timing_entropy", .medium⟩]
    else [])

/-- Embeds `EnhancedRedFlagDetector._analyze_repository_quality`. -/
def analyze_repository_quality {α : Type} [LinearOrderedField α]
    (features : Features α) : List RedFlag :=
  (if features.original_repo_ratio < 1/10 then
      [⟨"minimal_original_content", .critical⟩]
    else if features.original_repo_ratio < 1/5 then
      [⟨"low_original_content", .high⟩]
    else []) ++
  (if features.repo_naming_quality < 3/10 then
      [⟨"poor_repo_naming", .medium⟩]
    else []) ++
  (if features.maintenance_score < 1/5 then
      [⟨"poor_maintenance", .medium⟩]
    else [])

/-- Embeds `EnhancedRedFlagDetector._analyze_social_behavior`. -/
def analyze_social_behavior {α : Type} [LinearOrderedField α]
    (features : Features α) : List RedFlag :=
  (if features.follower_repo_ratio < 1/10 then
      [⟨"very_low_engagement", .medium⟩]
    else if features.follower_repo_ratio > 20 then
      [⟨"extreme_social_engagement", .high⟩]
    else []) ++
  (if features.profile_completeness < 3/10 then
      [⟨"incomplete_profile", .low⟩]
    else [])

/-- Embeds `EnhancedRedFlagDetector._analyze_commit_patterns`. -/
def analyze_commit_patterns {α : Type} [LinearOrderedField α]
    (features : Features α) : List RedFlag :=
  (if features.commit_frequency > 200 then
      [⟨"extreme_commit_frequency", .critical⟩]
    else if features.commit_frequency > 100 then
      [⟨"high_commit_frequency", .medium⟩]
    else if features.commit_frequency < 5 then
      [⟨"low_commit_frequency", .low⟩]
    else []) ++
  (if features.commit_msg_quality < 3/10 then
      [⟨"poor_commit_messages", .medium⟩]
    else []) ++
  (if features.burst_activity_score < 1/5 then
      [⟨"extreme_burst_activity", .critical⟩]
    else if features.burst_activity_score < 2/5 then
      [⟨"burst_activity_detected", .medium⟩]
    else [])

/-- Embeds `EnhancedRedFlagDetector._analyze_account_maturity`.  The second
check reads `features.get('public_repos', 0)`; the features dict built
by `_extract_features` has no `public_repos` key, so that lookup always
yields the default `0`. -/
def analyze_account_maturity {α : Type} [LinearOrderedField α]
    (features : Features α) (account_age_days : ℕ) : List RedFlag :=
  (if account_age_days < 30 ∧ features.commit_frequency > 50 then
      [⟨"new_account_high_activity", .high⟩]
    else []) ++
  (if features.account_maturity < 1/10 ∧ (0 : α) > 20 then
      [⟨"maturity_activity_mismatch", .medium⟩]
    else [])

/-- The classifier output handed to `_analyze_ml_insights`. -/
structure MlPrediction (α : Type) where
  suspicious_probability : α
  confidence : α
deriving DecidableEq, Repr

/-- Embeds `EnhancedRedFlagDetector._analyze_ml_insights`. -/
def analyze_ml_insights {α : Type} [LinearOrderedField α]
    (ml_prediction : MlPrediction α) : List RedFlag :=
  if ml_prediction.suspicious_probability > 4/5 ∧ ml_prediction.confidence > 9/10 then
    [⟨"ml_high_confidence_suspicious", .critical⟩]
  else if ml_prediction.suspicious_probability > 7/10 then
    [⟨"ml_suspicious_patterns", .high⟩]
  else []

/-- Embeds `EnhancedRedFlagDetector._analyze_cross_patterns`. -/
def analyze_cross_patterns {α : Type} [LinearOrderedField α]
    (features : Features α) : List RedFlag :=
  (if features.weekend_commit_ratio > 1/2 ∧ features.night_commit_ratio > 2/5 then
      [⟨"combined_temporal_anomaly", .critical⟩]
    else []) ++
  (if features.original_repo_ratio < 3/10 ∧ features.commit_frequency > 100 then
      [⟨"volume_vs_originality_mismatch", .high⟩]
    else []) ++
  (if features.activity_consistency > 19/20 ∧
      (features.weekend_commit_ratio > 2/5 ∨ features.night_commit_ratio > 3/10) then
      [⟨"perfect_consistency_anomaly", .high⟩]
    else [])

/-- Embeds `EnhancedRedFlagDetector.generate_enhanced_red_flags`: the
concatenation of all analyzers, in source order.  Of `github_data` only
`account_age_days` is read (by the maturity analyzer); `ml_prediction =
none` models the `None` default. -/
def generate_enhanced_red_flags {α : Type} [LinearOrderedField α]
    (features : Features α) (account_age_days : ℕ)
    (ml_prediction : Option (MlPrediction α)) : List RedFlag :=
  analyze_temporal_patterns features ++
  analyze_repository_quality features ++
  analyze_social_behavior features ++
  analyze_commit_patterns features ++
  analyze_account_maturity features account_age_days ++
  (match ml_prediction with
   | some p => analyze_ml_insights p
   | none => []) ++
  analyze_cross_patterns features

/-!
## Feature extraction (`TrainedMLAnalyzer._extract_features` and helpers)

The extractor works over `ℝ` because `np.std` (a square root) and
`np.log2` produce irrational values; every other operation is exact
field arithmetic on the rational inputs.
-/

/-- Embeds `TrainedMLAnalyzer._is_weekend`: parse failure yields `False`,
otherwise `weekday() >= 5` (Saturday / Sunday). -/
def is_weekend : Option CDate → Bool
  | none => false
  | some d => decide (5 ≤ d.weekday.val)

/-- Embeds `TrainedMLAnalyzer._is_night_time`: parse failure yields `False`,
otherwise `hour >= 22 or hour <= 6`. -/
def is_night_time : Option CDate → Bool
  | none => false
  | some d => decide (22 ≤ d.hour.val ∨ d.hour.val ≤ 6)

/-- Embeds `TrainedMLAnalyzer._is_recently_active`: updated within the last
180 days of `now`; parse failure yields `False`. -/
def is_recently_active (updated_at : Option ℤ) (now : ℤ) : Bool :=
  match updated_at with
  | none => false
  | some t => decide (t > now - 180)

/-- Embeds `np.mean` of a list of reals. -/
noncomputable def npMean (xs : List ℝ) : ℝ := xs.sum / xs.length

/-- Embeds `np.var` (population variance) of a list of reals. -/
noncomputable def npVar (xs : List ℝ) : ℝ :=
  ((xs.map fun x => (x - npMean xs) ^ 2).sum) / xs.length

/-- Embeds `np.std` (population standard deviation) of a list of reals. -/
noncomputable def npStd (xs : List ℝ) : ℝ := Real.sqrt (npVar xs)

/-- Embeds `TrainedMLAnalyzer._calculate_activity_consistency`: 1 minus the
coefficient of variation of weekly commit counts, clamped to [0, 1];
0.5 when fewer than 7 commits, 0 when no timestamp parses or the mean
is zero. -/
noncomputable def calculate_activity_consistency (commits : List Commit) : ℝ :=
  if commits.length < 7 then 1/2
  else
    let weeks := (commits.filterMap Commit.date).map CDate.week
    if weeks = [] then 0
    else
      let counts : List ℝ := weeks.dedup.map fun w => (weeks.count w : ℝ)
      if npMean counts = 0 then 0
      else min 1 (max 0 (1 - npStd counts / npMean counts))

/-- Embeds `TrainedMLAnalyzer._analyze_hourly_patterns`: the 24-bucket
histogram of commit hours (unparsable dates are skipped). -/
def analyze_hourly_patterns (commits : List Commit) : List ℕ :=
  (List.range 24).map fun h =>
    ((commits.filterMap Commit.date).map fun d => d.hour.val).count h

/-- Embeds `TrainedMLAnalyzer._calculate_entropy`: Shannon entropy (base 2) of
the histogram, normalized by `log2 24`; 0 for an all-zero histogram. -/
noncomputable def calculate_entropy (distribution : List ℕ) : ℝ :=
  let total := distribution.sum
  if total = 0 then 0
  else
    ((distribution.filter fun c => 0 < c).map fun c : ℕ =>
        -((c : ℝ) / total * Real.logb 2 ((c : ℝ) / total))).sum / Real.logb 2 24

/-- Python's `needle in haystack` on strings. -/
def containsSub (needle haystack : String) : Bool :=
  decide (needle.toList <:+: haystack.toList)

/-- The `meaningful_words` list of `_analyze_commit_messages`. -/
def meaningfulWords : List String :=
  ["implement", "add", "create", "refactor", "optimize", "enhance"]

/-- Per-message score of `_analyze_commit_messages` (the message is
already trimmed and nonempty). -/
def messageScore (m : String) : ℚ :=
  (if 10 ≤ m.length ∧ m.length ≤ 72 then 3/10 else 0) +
  (if m.front.isUpper then 1/5 else 0) +
  (if m.endsWith "." then 0 else 1/5) +
  (if meaningfulWords.any (fun w => containsSub w m.toLower) then 3/10 else 0)

/-- Embeds `TrainedMLAnalyzer._analyze_commit_messages`: average per-message
score over nonempty trimmed messages; 0.5 when there are no commits. -/
def analyze_commit_messages (commits : List Commit) : ℚ :=
  if commits = [] then 1/2
  else
    let msgs := (commits.map fun c => c.message.trim).filter fun m => m ≠ ""
    (msgs.map messageScore).sum / (max 1 msgs.length : ℕ)

/-- The `generic_names` list of `_analyze_repo_names`. -/
def genericNames : List String :=
  ["test", "demo", "sample", "hello-world", "untitled"]

/-- Per-repository score of `_analyze_repo_names`. -/
def repoNameScore (r : Repo) : ℚ :=
  let name := r.name.toLower
  (if genericNames.any (fun g => containsSub g name) then 0 else 2/5) +
  (if name.toList.contains '-' ∨ name.toList.contains '_' then 3/10 else 0) +
  (if 3 ≤ name.length ∧ name.length ≤ 30 then 3/10 else 0)

/-- Embeds `TrainedMLAnalyzer._analyze_repo_names`: average naming score;
0.5 when there are no repositories. -/
def analyze_repo_names (repos : List Repo) : ℚ :=
  if repos = [] then 1/2
  else ((repos.map repoNameScore).sum) / repos.length

/-- The category keyword table of `_analyze_contribution_types`, in the
source dict's order: feature, fix, refactor, docs, style, test. -/
def categoryKeywords : Fin 6 → List String
  | 0 => ["add", "implement", "create", "new"]
  | 1 => ["fix", "bug", "error", "issue"]
  | 2 => ["refactor", "clean", "optimize", "improve"]
  | 3 => ["doc", "readme", "comment"]
  | 4 => ["style", "format", "lint"]
  | 5 => ["test", "spec", "coverage"]

/-- The category a commit message is tallied under: the first category
whose keyword list matches (the loop `break`s after one match). -/
def commitCategory (message : String) : Option (Fin 6) :=
  (List.finRange 6).find? fun i =>
    (categoryKeywords i).any fun kw => containsSub kw message.toLower

/-- Embeds `TrainedMLAnalyzer._analyze_contribution_types`: fraction of the six
categories used by at least one commit; 0.5 when there are no commits. -/
def analyze_contribution_types (commits : List Commit) : ℚ :=
  if commits = [] then 1/2
  else
    ((List.finRange 6).countP fun i =>
      commits.any fun c => commitCategory c.message = some i) / 6

/-- Embeds `TrainedMLAnalyzer._calculate_profile_completeness`: fraction of the
8 profile fields that are truthy. -/
def calculate_profile_completeness (user : UserData) : ℚ :=
  ((if user.name ≠ "" then 1 else 0) +
   (if user.bio ≠ "" then 1 else 0) +
   (if user.location ≠ "" then 1 else 0) +
   (if user.company ≠ "" then 1 else 0) +
   (if user.blog ≠ "" then 1 else 0) +
   (if user.email ≠ "" then 1 else 0) +
   (if user.avatar_url ≠ "" then 1 else 0) +
   (if user.public_repos > 0 then 1 else 0) : ℚ) / 8

/-- Per-repository collaboration indicator of
`_calculate_collaboration_score`. -/
def collabIndicator (r : Repo) : ℚ :=
  (if r.forks_count > 0 then 1/2 else 0) +
  (if r.stargazers_count > 0 then 3/10 else 0) +
  (if r.open_issues_count > 0 then 1/5 else 0)

/-- Embeds `TrainedMLAnalyzer._calculate_collaboration_score`: capped average
of the per-repo indicators; 0.5 when there are no repositories. -/
def calculate_collaboration_score (repos : List Repo) : ℚ :=
  if repos = [] then 1/2
  else min 1 (((repos.map collabIndicator).sum) / repos.length)

/-- Embeds `TrainedMLAnalyzer._estimate_code_quality`: base 0.5 plus bonuses
for described repos, sizable repos and reasonable commit sizes,
capped at 1. -/
def estimate_code_quality (repos : List Repo) (commits : List Commit) : ℚ :=
  let quality : ℚ := 1/2
  let quality := if repos ≠ [] ∧
      ((repos.countP fun r => r.description ≠ "") : ℚ) / repos.length > 1/2 then
    quality + 1/5 else quality
  let quality := if repos ≠ [] ∧
      ((repos.countP fun r => r.size > 10) : ℚ) / repos.length > 3/10 then
    quality + 1/5 else quality
  let quality := if commits ≠ [] ∧
      ((commits.countP fun c => 5 ≤ c.additions + c.deletions ∧
          c.additions + c.deletions ≤ 500) : ℚ) / commits.length > 3/5 then
    quality + 1/10 else quality
  min 1 quality

/-- Embeds `TrainedMLAnalyzer._detect_burst_patterns`: 1 minus twice the share
of days whose commit count exceeds 3x the daily mean, floored at 0;
0.5 when fewer than 10 commits or no timestamp parses. -/
noncomputable def detect_burst_patterns (commits : List Commit) : ℝ :=
  if commits.length < 10 then 1/2
  else
    let days := (commits.filterMap Commit.date).map CDate.day
    if days = [] then 1/2
    else
      let counts : List ℝ := days.dedup.map fun d => (days.count d : ℝ)
      let burst_days := counts.countP fun c => decide (c > npMean counts * 3)
      max 0 (1 - (burst_days : ℝ) / counts.length * 2)

/-- Per-repository maintenance score of `_calculate_maintenance_score`. -/
def maintenanceIndicator (r : Repo) (now : ℤ) : ℚ :=
  (if is_recently_active r.updated_at now then 2/5 else 0) +
  (if r.has_releases then 3/10 else 0) +
  (if r.archived then 0 else 3/10)

/-- Embeds `TrainedMLAnalyzer._calculate_maintenance_score`: average of the
per-repo maintenance scores; 0.5 when there are no repositories. -/
def calculate_maintenance_score (repos : List Repo) (now : ℤ) : ℚ :=
  if repos = [] then 1/2
  else ((repos.map (maintenanceIndicator · now)).sum) / repos.length

/-- Embeds `TrainedMLAnalyzer._extract_features`: the full 24-signal feature
vector, with the caps of the source's return statement applied. -/
noncomputable def extract_features (d : Snapshot) (now : ℤ) : Features ℝ :=
  let commits := d.commits
  let repos := d.repositories
  let user := d.user
  let commit_frequency : ℝ :=
    (commits.length : ℝ) / (max 1 d.account_age_days : ℕ) * 365
  let weekend_commit_ratio : ℝ :=
    (commits.countP fun c => is_weekend c.date : ℕ) / (max 1 commits.length : ℕ)
  let night_commit_ratio : ℝ :=
    (commits.countP fun c => is_night_time c.date : ℕ) / (max 1 commits.length : ℕ)
  let original_repo_ratio : ℝ :=
    (repos.countP fun r => ¬ r.fork : ℕ) / (max 1 repos.length : ℕ)
  let commit_sizes : List ℝ := commits.map fun c => ((c.additions + c.deletions : ℕ) : ℝ)
  let commit_size_variance : ℝ :=
    if commit_sizes ≠ [] then npVar commit_sizes / (npMean commit_sizes + 1) else 0
  let follower_repo_ratio : ℝ :=
    (user.followers : ℝ) / (max 1 user.public_repos : ℕ)
  let follower_following_ratio : ℝ :=
    if user.following > 0 then (user.followers : ℝ) / (max 1 user.following : ℕ) else 0
  let language_diversity : ℕ :=
    ((repos.filterMap Repo.language).filter fun s => s ≠ "").dedup.length
  let total_stars := (repos.map Repo.stargazers_count).sum
  let total_forks := (repos.map Repo.forks_count).sum
  let avg_stars_per_repo : ℝ := (total_stars : ℝ) / (max 1 repos.length : ℕ)
  let avg_forks_per_repo : ℝ := (total_forks : ℝ) / (max 1 repos.length : ℕ)
  let repo_activity_ratio : ℝ :=
    (repos.countP fun r => is_recently_active r.updated_at now : ℕ) /
      (max 1 repos.length : ℕ)
  let repo_sizes : List ℝ := (repos.map fun r => (r.size : ℝ)).filter fun s => decide (s > 0)
  let repo_size_variance : ℝ :=
    if repo_sizes ≠ [] then npVar repo_sizes / (npMean repo_sizes + 1) else 0
  let total_issues := (repos.map Repo.open_issues_count).sum
  let issue_engagement : ℝ := (total_issues : ℝ) / (max 1 repos.length : ℕ)
  let account_maturity : ℝ := min 1 ((d.account_age_days : ℝ) / 365)
  { commit_frequency := min 100 commit_frequency
    weekend_commit_ratio := weekend_commit_ratio
    night_commit_ratio := night_commit_ratio
    original_repo_ratio := original_repo_ratio
    commit_size_variance := min 1 commit_size_variance
    activity_consistency := calculate_activity_consistency commits
    follower_repo_ratio := min 10 follower_repo_ratio
    follower_following_ratio := min 10 follower_following_ratio
    language_diversity := min 15 (language_diversity : ℝ)
    avg_stars_per_repo := min 100 avg_stars_per_repo
    avg_forks_per_repo := min 50 avg_forks_per_repo
    repo_activity_ratio := repo_activity_ratio
    commit_msg_quality := ((analyze_commit_messages commits : ℚ) : ℝ)
    repo_size_variance := min 1 repo_size_variance
    issue_engagement := min 20 issue_engagement
    account_maturity := account_maturity
    timing_entropy := calculate_entropy (analyze_hourly_patterns commits)
    repo_naming_quality := ((analyze_repo_names repos : ℚ) : ℝ)
    contribution_diversity := ((analyze_contribution_types commits : ℚ) : ℝ)
    profile_completeness := ((calculate_profile_completeness user : ℚ) : ℝ)
    collaboration_score := ((calculate_collaboration_score repos : ℚ) : ℝ)
    code_quality_score := ((estimate_code_quality repos commits : ℚ) : ℝ)
    burst_activity_score := detect_burst_patterns commits
    maintenance_score := ((calculate_maintenance_score repos now : ℚ) : ℝ) }

/-!
## Helper lemmas
-/

/-- Truncation toward zero (`pyInt`) is monotone. -/
theorem pyInt_mono {α : Type} [LinearOrderedField α] [FloorRing α]
    {x y : α} (h : x ≤ y) : pyInt x ≤ pyInt y := by
  unfold pyInt
  split_ifs with hx hy
  · exact neg_le_neg (Int.floor_le_floor (by linarith))
  · have h1 : (0:ℤ) ≤ ⌊-x⌋ := Int.le_floor.mpr (by push_cast; linarith)
    have h2 : (0:ℤ) ≤ ⌊y⌋ := Int.le_floor.mpr (by push_cast; linarith)
    omega
  · linarith
  · exact Int.floor_le_floor h

/-- Truncation `pyInt` agrees with the floor on nonnegative arguments. -/
theorem pyInt_of_nonneg {α : Type} [LinearOrderedField α] [FloorRing α]
    {x : α} (h : 0 ≤ x) : pyInt x = ⌊x⌋ := by
  unfold pyInt
  exact if_neg (not_lt.mpr h)

/-- Truncation `pyInt` of a natural-number constant. -/
theorem pyInt_natCast {α : Type} [LinearOrderedField α] [FloorRing α]
    (n : ℕ) : pyInt ((n : α)) = n := by
  rw [pyInt_of_nonneg (by positivity)]
  exact_mod_cast Int.floor_natCast n

/-- Clamp-and-truncate evaluated at a natural-number value ≤ 100. -/
theorem clampPyInt_natCast (n : ℕ) (h : n ≤ 100) :
    max 0 (min 100 (pyInt ((n : ℚ)))) = n := by
  rw [pyInt_natCast]
  omega

/-!
## Claim C1 — the fallback score formula and the fixed confidence
-/

/-- The fallback authenticity score as claim C1 states it: 100 minus
only the five penalties the claim lists (weekend, original-repo,
extreme follower ratio, language diversity, extreme frequency),
truncated and clamped to [0, 100]. -/
def c1ScoreAsStated (f : Features ℚ) : ℤ :=
  max 0 (min 100 (pyInt (100 - (weekendPenalty f + originalPenalty f +
    followerPenalty f + languagePenalty f + frequencyPenalty f))))

/-- A feature vector with every signal benign except a night-commit
ratio of 1 (and a neutral 0.5 activity consistency). -/
def c1Vector : Features ℚ :=
  { commit_frequency := 50
    weekend_commit_ratio := 0
    night_commit_ratio := 1
    original_repo_ratio := 1/2
    commit_size_variance := 0
    activity_consistency := 1/2
    follower_repo_ratio := 1
    follower_following_ratio := 1
    language_diversity := 5
    avg_stars_per_repo := 0
    avg_forks_per_repo := 0
    repo_activity_ratio := 0
    commit_msg_quality := 1/2
    repo_size_variance := 0
    issue_engagement := 0
    account_maturity := 1
    timing_entropy := 1/2
    repo_naming_quality := 1/2
    contribution_diversity := 1/2
    profile_completeness := 1/2
    collaboration_score := 1/2
    code_quality_score := 1/2
    burst_activity_score := 1/2
    maintenance_score := 1/2 }

/-- C1 counterexample: at `c1Vector` the code's fallback score is 72
(it also subtracts the night penalty `(1 - 0.3) * 40 = 28`), while the
five-penalty formula stated by the claim gives 100 — so the claimed
formula does not describe the code. -/
theorem c1_counterexample :
    (predict_with_rules c1Vector).1 = 72 ∧ c1ScoreAsStated c1Vector = 100 ∧
      (predict_with_rules c1Vector).1 ≠ c1ScoreAsStated c1Vector := by
  have h1 : (predict_with_rules c1Vector).1 = 72 := by
    rw [predict_with_rules_eq]
    show max 0 (min 100 (pyInt (100 - totalPenalty c1Vector))) = 72
    have ht : (100 : ℚ) - totalPenalty c1Vector = ((72 : ℕ) : ℚ) := by
      unfold totalPenalty weekendPenalty nightPenalty originalPenalty
        consistencyPenalty followerPenalty languagePenalty frequencyPenalty c1Vector
      norm_num
    rw [ht, clampPyInt_natCast 72 (by omega)]
    norm_num
  have h2 : c1ScoreAsStated c1Vector = 100 := by
    unfold c1ScoreAsStated
    have ht : (100 : ℚ) - (weekendPenalty c1Vector + originalPenalty c1Vector +
        followerPenalty c1Vector + languagePenalty c1Vector +
        frequencyPenalty c1Vector) = ((100 : ℕ) : ℚ) := by
      unfold weekendPenalty originalPenalty followerPenalty languagePenalty
        frequencyPenalty c1Vector
      norm_num
    rw [ht, clampPyInt_natCast 100 (by omega)]
    norm_num
  refine ⟨h1, h2, ?_⟩
  rw [h1, h2]
  decide

/-- C1 (amended): for every feature vector the rule-based fallback score
equals 100 minus the sum of SEVEN penalties — the five the claim lists
plus `(night_commit_ratio - 0.3) * 40` when `night_commit_ratio > 0.3`
and `(0.5 - activity_consistency) * 25` when
`activity_consistency < 0.5` — truncated toward zero and clamped to
[0, 100]; the returned confidence is exactly the fixed constant 75. -/
theorem c1_fallback_score_formula (f : Features ℚ) :
    predict_with_rules f =
      (max 0 (min 100 (pyInt (100 - (weekendPenalty f + nightPenalty f +
        originalPenalty f + consistencyPenalty f + followerPenalty f +
        languagePenalty f + frequencyPenalty f)))), 75) := by
  rw [predict_with_rules_eq]
  unfold totalPenalty
  rfl

/-!
## Claim C6 — the night-commit window
-/

/-- C6: the code's night predicate at an hour-6 timestamp.  The claim
(and the source's own docstring, "night hours (10 PM - 6 AM)") gives the
half-open window [22:00, 06:00), i.e. `hour ≥ 22 ∨ hour < 6`, under
which hour 6 is not night; the code tests `hour >= 22 or hour <= 6` and
therefore counts the whole 06:00 hour as night. -/
theorem c6_night_hour_six :
    is_night_time (some { weekday := 1, hour := 6, week := 1, day := 0 }) = true ∧
      ¬ (22 ≤ (6 : ℕ) ∨ (6 : ℕ) < 6) := by
  decide

/-- The weekend penalty is nonnegative. -/
theorem weekendPenalty_nonneg {α : Type} [LinearOrderedField α] (f : Features α) :
    0 ≤ weekendPenalty f := by
  unfold weekendPenalty
  split_ifs with h
  · exact mul_nonneg (by linarith) (by norm_num)
  · exact le_refl 0

/-- The night penalty is nonnegative. -/
theorem nightPenalty_nonneg {α : Type} [LinearOrderedField α] (f : Features α) :
    0 ≤ nightPenalty f := by
  unfold nightPenalty
  split_ifs with h
  · exact mul_nonneg (by linarith) (by norm_num)
  · exact le_refl 0

/-- The original-repository penalty is nonnegative. -/
theorem originalPenalty_nonneg {α : Type} [LinearOrderedField α] (f : Features α) :
    0 ≤ originalPenalty f := by
  unfold originalPenalty
  split_ifs with h
  · exact mul_nonneg (by linarith) (by norm_num)
  · exact le_refl 0

/-- The activity-consistency penalty is nonnegative. -/
theorem consistencyPenalty_nonneg {α : Type} [LinearOrderedField α] (f : Features α) :
    0 ≤ consistencyPenalty f := by
  unfold consistencyPenalty
  split_ifs with h
  · exact mul_nonneg (by linarith) (by norm_num)
  · exact le_refl 0

/-- The follower penalty is nonnegative. -/
theorem followerPenalty_nonneg {α : Type} [LinearOrderedField α] (f : Features α) :
    0 ≤ followerPenalty f := by
  unfold followerPenalty
  split_ifs <;> norm_num

/-- The language penalty is nonnegative. -/
theorem languagePenalty_nonneg {α : Type} [LinearOrderedField α] (f : Features α) :
    0 ≤ languagePenalty f := by
  unfold languagePenalty
  split_ifs <;> norm_num

/-- The frequency penalty is nonnegative. -/
theorem frequencyPenalty_nonneg {α : Type} [LinearOrderedField α] (f : Features α) :
    0 ≤ frequencyPenalty f := by
  unfold frequencyPenalty
  split_ifs <;> norm_num

/-- Clamp-and-truncate is bounded by any natural bound on its input. -/
theorem clampPyInt_le_of_le (q : ℚ) (n : ℕ) (h : q ≤ (n : ℚ)) :
    max 0 (min 100 (pyInt q)) ≤ n := by
  have h2 : pyInt q ≤ (n : ℤ) := by
    have := pyInt_mono h
    rwa [pyInt_natCast] at this
  exact max_le (by positivity) (le_trans (min_le_right _ _) h2)

/-- Flags of critical severity. -/
def criticalFlags (flags : List RedFlag) : List RedFlag :=
  flags.filter fun r => decide (r.severity = Severity.critical)

/-!
## Claim C5 — combined temporal anomaly escalation and scenario 2
-/

/-- C5 (amended): every feature vector with weekend ratio above 0.5 and
night ratio above 0.4 receives the `combined_temporal_anomaly` flag with
severity critical; and every vector with weekend ratio 0.9, night ratio
0.7, original-repo ratio 0.1 and one language yields a critical red flag
and a fallback score ≤ 37 (the four firing penalties alone already sum
to 63; the claim's bound of 30 is not reached when every other signal is
benign). -/
theorem c5_combined_temporal_anomaly (f : Features ℚ) (age : ℕ)
    (ml : Option (MlPrediction ℚ)) :
    (1/2 < f.weekend_commit_ratio → 2/5 < f.night_commit_ratio →
      (⟨"combined_temporal_anomaly", Severity.critical⟩ : RedFlag) ∈
        generate_enhanced_red_flags f age ml) ∧
    (f.weekend_commit_ratio = 9/10 → f.night_commit_ratio = 7/10 →
      f.original_repo_ratio = 1/10 → f.language_diversity = 1 →
      (⟨"combined_temporal_anomaly", Severity.critical⟩ : RedFlag) ∈
        generate_enhanced_red_flags f age ml ∧
      (predict_with_rules f).1 ≤ 37) := by
  have hmem : 1/2 < f.weekend_commit_ratio → 2/5 < f.night_commit_ratio →
      (⟨"combined_temporal_anomaly", Severity.critical⟩ : RedFlag) ∈
        generate_enhanced_red_flags f age ml := by
    intro hw hn
    unfold generate_enhanced_red_flags
    refine List.mem_append_right _ ?_
    unfold analyze_cross_patterns
    refine List.mem_append_left _ (List.mem_append_left _ ?_)
    rw [if_pos ⟨hw, hn⟩]
    exact List.mem_singleton_self _
  refine ⟨hmem, fun hw hn ho hl => ?_⟩
  refine ⟨hmem (by rw [hw]; norm_num) (by rw [hn]; norm_num), ?_⟩
  rw [predict_with_rules_eq]
  show max 0 (min 100 (pyInt (100 - totalPenalty f))) ≤ 37
  have hW : weekendPenalty f = 25 := by unfold weekendPenalty; rw [hw]; norm_num
  have hN : nightPenalty f = 16 := by unfold nightPenalty; rw [hn]; norm_num
  have hO : originalPenalty f = 12 := by unfold originalPenalty; rw [ho]; norm_num
  have hL : languagePenalty f = 10 := by unfold languagePenalty; rw [hl]; norm_num
  refine clampPyInt_le_of_le _ 37 ?_
  have h1 := consistencyPenalty_nonneg f
  have h2 := followerPenalty_nonneg f
  have h3 := frequencyPenalty_nonneg f
  unfold totalPenalty
  rw [hW, hN, hO, hL]
  push_cast
  linarith

/-- The scenario-2 feature vector: weekend 0.9, night 0.7, original 0.1,
one language, every other signal benign. -/
def c5Vector : Features ℚ :=
  { commit_frequency := 50
    weekend_commit_ratio := 9/10
    night_commit_ratio := 7/10
    original_repo_ratio := 1/10
    commit_size_variance := 0
    activity_consistency := 1/2
    follower_repo_ratio := 1
    follower_following_ratio := 1
    language_diversity := 1
    avg_stars_per_repo := 0
    avg_forks_per_repo := 0
    repo_activity_ratio := 0
    commit_msg_quality := 1/2
    repo_size_variance := 0
    issue_engagement := 0
    account_maturity := 1
    timing_entropy := 1/2
    repo_naming_quality := 1/2
    contribution_diversity := 1/2
    profile_completeness := 1/2
    collaboration_score := 1/2
    code_quality_score := 1/2
    burst_activity_score := 1/2
    maintenance_score := 1/2 }

/-- Witness for C5 at the concrete scenario-2 vector. -/
theorem c5_combined_temporal_anomaly_witness :
    (⟨"combined_temporal_anomaly", Severity.critical⟩ : RedFlag) ∈
      generate_enhanced_red_flags c5Vector 365 none ∧
    (predict_with_rules c5Vector).1 ≤ 37 :=
  (c5_combined_temporal_anomaly c5Vector 365 none).2 rfl rfl rfl rfl

/-!
## Claim C8 — scenario 1 (healthy profile)
-/

/-- A vector matching scenario 1's four stated signals (extracted
commit_frequency is the cap 100, from 200 commits/year) but with a
night-commit ratio of 0.9 — the other signals are not fixed by the
claim, and this one breaks both of its conclusions. -/
def c8Vector : Features ℚ :=
  { commit_frequency := 100
    weekend_commit_ratio := 1/20
    night_commit_ratio := 9/10
    original_repo_ratio := 4/5
    commit_size_variance := 0
    activity_consistency := 1/2
    follower_repo_ratio := 1
    follower_following_ratio := 1
    language_diversity := 5
    avg_stars_per_repo := 0
    avg_forks_per_repo := 0
    repo_activity_ratio := 0
    commit_msg_quality := 1/2
    repo_size_variance := 0
    issue_engagement := 0
    account_maturity := 1
    timing_entropy := 1/2
    repo_naming_quality := 1/2
    contribution_diversity := 1/2
    profile_completeness := 1/2
    collaboration_score := 1/2
    code_quality_score := 1/2
    burst_activity_score := 1/2
    maintenance_score := 1/2 }

/-- C8 counterexample: `c8Vector` has the claim's four signal values,
yet its fallback score is 76 < 85 and it receives the critical
`extreme_night_activity` flag — the claim does not hold for every
snapshot with those four extracted features. -/
theorem c8_counterexample :
    (predict_with_rules c8Vector).1 = 76 ∧
      (⟨"extreme_night_activity", Severity.critical⟩ : RedFlag) ∈
        generate_enhanced_red_flags c8Vector 365 none ∧
      ¬ (85 ≤ (predict_with_rules c8Vector).1) := by
  have h1 : (predict_with_rules c8Vector).1 = 76 := by
    rw [predict_with_rules_eq]
    show max 0 (min 100 (pyInt (100 - totalPenalty c8Vector))) = 76
    have ht : (100 : ℚ) - totalPenalty c8Vector = ((76 : ℕ) : ℚ) := by
      unfold totalPenalty weekendPenalty nightPenalty originalPenalty
        consistencyPenalty followerPenalty languagePenalty frequencyPenalty c8Vector
      norm_num
    rw [ht, clampPyInt_natCast 76 (by omega)]
    norm_num
  refine ⟨h1, ?_, by rw [h1]; omega⟩
  unfold generate_enhanced_red_flags
  refine List.mem_append_left _ (List.mem_append_left _ (List.mem_append_left _
    (List.mem_append_left _ (List.mem_append_left _ (List.mem_append_left _ ?_)))))
  unfold analyze_temporal_patterns
  refine List.mem_append_left _ (List.mem_append_right _ ?_)
  rw [if_pos (by unfold c8Vector; norm_num)]
  exact List.mem_singleton_self _

/-- C8 (amended): a snapshot whose extracted features are the capped
commit frequency 100 (from 200 commits/year), weekend ratio 0.05,
original-repo ratio 0.8 and 5 languages — and whose remaining signals
cross no penalty or critical threshold (night ≤ 0.3, consistency ≥ 0.5,
follower ratio within [0.1, 5], burst score ≥ 0.2) — receives a
fallback score of at least 85 and zero critical red flags. -/
theorem c8_healthy_profile (f : Features ℚ) (age : ℕ)
    (h1 : f.commit_frequency = 100) (h2 : f.weekend_commit_ratio = 1/20)
    (h3 : f.original_repo_ratio = 4/5) (h4 : f.language_diversity = 5)
    (h5 : f.night_commit_ratio ≤ 3/10) (h6 : 1/2 ≤ f.activity_consistency)
    (h7 : 1/10 ≤ f.follower_repo_ratio) (h8 : f.follower_repo_ratio ≤ 5)
    (h9 : 1/5 ≤ f.burst_activity_score) :
    85 ≤ (predict_with_rules f).1 ∧
      criticalFlags (generate_enhanced_red_flags f age none) = [] := by
  constructor
  · rw [predict_with_rules_eq]
    show (85 : ℤ) ≤ max 0 (min 100 (pyInt (100 - totalPenalty f)))
    have ht : (100 : ℚ) - totalPenalty f = ((100 : ℕ) : ℚ) := by
      unfold totalPenalty weekendPenalty nightPenalty originalPenalty
        consistencyPenalty followerPenalty languagePenalty frequencyPenalty
      rw [h1, h2, h3, h4]
      rw [if_neg (by norm_num), if_neg (by linarith), if_neg (by norm_num),
        if_neg (by linarith), if_neg (by push_neg; exact ⟨h7, h8⟩),
        if_neg (by norm_num), if_neg (by norm_num)]
      norm_num
    rw [ht, clampPyInt_natCast 100 (by omega)]
    omega
  · have hn1 : ¬ (f.night_commit_ratio > 7/10) := by linarith
    have hb1 : ¬ (f.burst_activity_score < 1/5) := by linarith
    unfold criticalFlags generate_enhanced_red_flags analyze_temporal_patterns
      analyze_repository_quality analyze_social_behavior analyze_commit_patterns
      analyze_account_maturity analyze_cross_patterns
    simp only [h1, h2, h3, h4]
    simp [List.filter_append,
      apply_ite (List.filter fun r : RedFlag => decide (r.severity = Severity.critical)),
      hn1, hb1]
    refine ⟨by norm_num, by norm_num, by norm_num, by linarith, fun h => ?_⟩
    norm_num at h

/-- The scenario-1 vector with every remaining signal benign. -/
def c8WitnessVector : Features ℚ :=
  { commit_frequency := 100
    weekend_commit_ratio := 1/20
    night_commit_ratio := 0
    original_repo_ratio := 4/5
    commit_size_variance := 0
    activity_consistency := 1/2
    follower_repo_ratio := 1
    follower_following_ratio := 1
    language_diversity := 5
    avg_stars_per_repo := 0
    avg_forks_per_repo := 0
    repo_activity_ratio := 0
    commit_msg_quality := 1/2
    repo_size_variance := 0
    issue_engagement := 0
    account_maturity := 1
    timing_entropy := 1/2
    repo_naming_quality := 1/2
    contribution_diversity := 1/2
    profile_completeness := 1/2
    collaboration_score := 1/2
    code_quality_score := 1/2
    burst_activity_score := 1/2
    maintenance_score := 1/2 }

/-- Witness for C8 at a concrete healthy vector. -/
theorem c8_healthy_profile_witness :
    85 ≤ (predict_with_rules c8WitnessVector).1 ∧
      criticalFlags (generate_enhanced_red_flags c8WitnessVector 365 none) = [] :=
  c8_healthy_profile c8WitnessVector 365 rfl rfl rfl rfl
    (by norm_num [c8WitnessVector]) (by norm_num [c8WitnessVector])
    (by norm_num [c8WitnessVector]) (by norm_num [c8WitnessVector])
    (by norm_num [c8WitnessVector])

/-!
## Claim C4 — monotonicity in the weekend-commit ratio
-/

/-- Ids of the red flags whose firing condition reads
`weekend_commit_ratio`. -/
def weekendRelatedIds : List String :=
  ["elevated_weekend_activity", "high_weekend_activity", "extreme_weekend_activity",
   "combined_temporal_anomaly", "perfect_consistency_anomaly"]

/-- The weekend-related flags of a flag list. -/
def weekendFlags (flags : List RedFlag) : List RedFlag :=
  flags.filter fun r => weekendRelatedIds.contains r.id

/-- Number of weekend-related flags. -/
def weekendFlagCount (flags : List RedFlag) : ℕ := (weekendFlags flags).length

/-- Highest severity rank among the weekend-related flags (0 if none). -/
def weekendMaxSeverity (flags : List RedFlag) : ℕ :=
  ((weekendFlags flags).map fun r => r.severity.rank).foldr max 0

/-- The weekend if/elif chain of `_analyze_temporal_patterns`. -/
def weekendChainFlags (x : ℚ) : List RedFlag :=
  if 4/5 < x then [⟨"extreme_weekend_activity", .critical⟩]
  else if 3/5 < x then [⟨"high_weekend_activity", .high⟩]
  else if 2/5 < x then [⟨"elevated_weekend_activity", .medium⟩]
  else []

/-- The combined-temporal cross-pattern check of
`_analyze_cross_patterns`. -/
def combinedFlag (x n : ℚ) : List RedFlag :=
  if 1/2 < x ∧ 2/5 < n then [⟨"combined_temporal_anomaly", .critical⟩] else []

/-- The perfect-consistency cross-pattern check of
`_analyze_cross_patterns`. -/
def perfectFlag (x n c : ℚ) : List RedFlag :=
  if 19/20 < c ∧ (2/5 < x ∨ 3/10 < n) then
    [⟨"perfect_consistency_anomaly", .high⟩] else []

/-- The weekend-related flags of a detector run are exactly the weekend
chain plus the two weekend-reading cross-pattern checks. -/
theorem weekendFlags_generate (f : Features ℚ) (x : ℚ) (age : ℕ)
    (ml : Option (MlPrediction ℚ)) :
    weekendFlags (generate_enhanced_red_flags
        { f with weekend_commit_ratio := x } age ml) =
      weekendChainFlags x ++
        (combinedFlag x f.night_commit_ratio ++
          perfectFlag x f.night_commit_ratio f.activity_consistency) := by
  rcases ml with _ | p <;>
  · unfold weekendFlags generate_enhanced_red_flags analyze_temporal_patterns
      analyze_repository_quality analyze_social_behavior analyze_commit_patterns
      analyze_account_maturity analyze_cross_patterns
    try unfold analyze_ml_insights
    simp only [List.filter_append,
      apply_ite (List.filter fun r : RedFlag => weekendRelatedIds.contains r.id)]
    simp [weekendRelatedIds, weekendChainFlags, combinedFlag, perfectFlag]

/-- Highest severity rank in a flag list (0 if empty). -/
def listMaxSev (l : List RedFlag) : ℕ :=
  (l.map fun r => r.severity.rank).foldr max 0

/-- Folding `max` with any seed equals `max` of the fold and the seed. -/
theorem foldr_max_eq (l : List ℕ) (s : ℕ) :
    l.foldr max s = max (l.foldr max 0) s := by
  induction l with
  | nil => simp
  | cons a t ih => simp [List.foldr_cons, ih, max_assoc]

/-- The function `listMaxSev` turns append into `max`. -/
theorem listMaxSev_append (l1 l2 : List RedFlag) :
    listMaxSev (l1 ++ l2) = max (listMaxSev l1) (listMaxSev l2) := by
  unfold listMaxSev
  rw [List.map_append, List.foldr_append, foldr_max_eq]

/-- Count form of the weekend-related flags of a detector run. -/
theorem weekendFlagCount_generate (f : Features ℚ) (x : ℚ) (age : ℕ)
    (ml : Option (MlPrediction ℚ)) :
    weekendFlagCount (generate_enhanced_red_flags
        { f with weekend_commit_ratio := x } age ml) =
      (weekendChainFlags x).length +
        ((combinedFlag x f.night_commit_ratio).length +
          (perfectFlag x f.night_commit_ratio f.activity_consistency).length) := by
  unfold weekendFlagCount
  rw [weekendFlags_generate]
  simp [List.length_append]

/-- Severity form of the weekend-related flags of a detector run. -/
theorem weekendMaxSeverity_generate (f : Features ℚ) (x : ℚ) (age : ℕ)
    (ml : Option (MlPrediction ℚ)) :
    weekendMaxSeverity (generate_enhanced_red_flags
        { f with weekend_commit_ratio := x } age ml) =
      max (listMaxSev (weekendChainFlags x))
        (max (listMaxSev (combinedFlag x f.night_commit_ratio))
          (listMaxSev (perfectFlag x f.night_commit_ratio f.activity_consistency))) := by
  show listMaxSev (weekendFlags _) = _
  rw [weekendFlags_generate, listMaxSev_append, listMaxSev_append]

/-- The weekend chain emits (weakly) more flags at a larger ratio. -/
theorem weekendChainFlags_length_mono {w w' : ℚ} (h : w ≤ w') :
    (weekendChainFlags w).length ≤ (weekendChainFlags w').length := by
  unfold weekendChainFlags
  split_ifs <;> simp_all <;> linarith

/-- The combined-temporal check fires (weakly) more at a larger ratio. -/
theorem combinedFlag_length_mono {w w' n : ℚ} (h : w ≤ w') :
    (combinedFlag w n).length ≤ (combinedFlag w' n).length := by
  unfold combinedFlag
  split_ifs with h1 h2
  · exact le_refl _
  · exact absurd ⟨lt_of_lt_of_le h1.1 h, h1.2⟩ h2
  · exact Nat.zero_le _
  · exact le_refl _

/-- The perfect-consistency check fires (weakly) more at a larger ratio. -/
theorem perfectFlag_length_mono {w w' n c : ℚ} (h : w ≤ w') :
    (perfectFlag w n c).length ≤ (perfectFlag w' n c).length := by
  unfold perfectFlag
  split_ifs with h1 h2
  · exact le_refl _
  · refine absurd ?_ h2
    rcases h1.2 with h3 | h3
    · exact ⟨h1.1, Or.inl (lt_of_lt_of_le h3 h)⟩
    · exact ⟨h1.1, Or.inr h3⟩
  · exact Nat.zero_le _
  · exact le_refl _

/-- The weekend chain's severity is (weakly) higher at a larger ratio. -/
theorem weekendChainFlags_maxSev_mono {w w' : ℚ} (h : w ≤ w') :
    listMaxSev (weekendChainFlags w) ≤ listMaxSev (weekendChainFlags w') := by
  unfold weekendChainFlags
  split_ifs <;> simp_all [listMaxSev, Severity.rank] <;> linarith

/-- The combined-temporal severity is (weakly) higher at a larger ratio. -/
theorem combinedFlag_maxSev_mono {w w' n : ℚ} (h : w ≤ w') :
    listMaxSev (combinedFlag w n) ≤ listMaxSev (combinedFlag w' n) := by
  unfold combinedFlag
  split_ifs with h1 h2
  · exact le_refl _
  · exact absurd ⟨lt_of_lt_of_le h1.1 h, h1.2⟩ h2
  · exact Nat.zero_le _
  · exact le_refl _

/-- The perfect-consistency severity is (weakly) higher at a larger
ratio. -/
theorem perfectFlag_maxSev_mono {w w' n c : ℚ} (h : w ≤ w') :
    listMaxSev (perfectFlag w n c) ≤ listMaxSev (perfectFlag w' n c) := by
  unfold perfectFlag
  split_ifs with h1 h2
  · exact le_refl _
  · refine absurd ?_ h2
    rcases h1.2 with h3 | h3
    · exact ⟨h1.1, Or.inl (lt_of_lt_of_le h3 h)⟩
    · exact ⟨h1.1, Or.inr h3⟩
  · exact Nat.zero_le _
  · exact le_refl _

/-- C4: raising `weekend_commit_ratio` with every other signal held
fixed never raises the fallback authenticity score, never lowers the
number of weekend-related red flags, and never lowers their highest
severity. -/
theorem c4_weekend_monotonicity (f : Features ℚ) (w w' : ℚ) (age : ℕ)
    (ml : Option (MlPrediction ℚ)) (h : w ≤ w') :
    (predict_with_rules { f with weekend_commit_ratio := w' }).1 ≤
      (predict_with_rules { f with weekend_commit_ratio := w }).1 ∧
    weekendFlagCount (generate_enhanced_red_flags
        { f with weekend_commit_ratio := w } age ml) ≤
      weekendFlagCount (generate_enhanced_red_flags
        { f with weekend_commit_ratio := w' } age ml) ∧
    weekendMaxSeverity (generate_enhanced_red_flags
        { f with weekend_commit_ratio := w } age ml) ≤
      weekendMaxSeverity (generate_enhanced_red_flags
        { f with weekend_commit_ratio := w' } age ml) := by
  refine ⟨?_, ?_, ?_⟩
  · rw [predict_with_rules_eq, predict_with_rules_eq]
    show max 0 (min 100 (pyInt _)) ≤ max 0 (min 100 (pyInt _))
    refine max_le_max (le_refl 0) (min_le_min (le_refl 100) (pyInt_mono ?_))
    have hw : weekendPenalty { f with weekend_commit_ratio := w } ≤
        weekendPenalty { f with weekend_commit_ratio := w' } := by
      unfold weekendPenalty
      dsimp only
      split_ifs with a b
      · linarith
      · exact absurd (lt_of_lt_of_le a h) b
      · nlinarith
      · exact le_refl 0
    have e2 : nightPenalty { f with weekend_commit_ratio := w } =
        nightPenalty { f with weekend_commit_ratio := w' } := rfl
    have e3 : originalPenalty { f with weekend_commit_ratio := w } =
        originalPenalty { f with weekend_commit_ratio := w' } := rfl
    have e4 : consistencyPenalty { f with weekend_commit_ratio := w } =
        consistencyPenalty { f with weekend_commit_ratio := w' } := rfl
    have e5 : followerPenalty { f with weekend_commit_ratio := w } =
        followerPenalty { f with weekend_commit_ratio := w' } := rfl
    have e6 : languagePenalty { f with weekend_commit_ratio := w } =
        languagePenalty { f with weekend_commit_ratio := w' } := rfl
    have e7 : frequencyPenalty { f with weekend_commit_ratio := w } =
        frequencyPenalty { f with weekend_commit_ratio := w' } := rfl
    unfold totalPenalty
    rw [e2, e3, e4, e5, e6, e7]
    linarith [hw]
  · rw [weekendFlagCount_generate, weekendFlagCount_generate]
    exact Nat.add_le_add (weekendChainFlags_length_mono h)
      (Nat.add_le_add (combinedFlag_length_mono h) (perfectFlag_length_mono h))
  · rw [weekendMaxSeverity_generate, weekendMaxSeverity_generate]
    exact max_le_max (weekendChainFlags_maxSev_mono h)
      (max_le_max (combinedFlag_maxSev_mono h) (perfectFlag_maxSev_mono h))

/-- Witness for C4 at weekend ratios 0 ≤ 1 over a concrete base vector. -/
theorem c4_weekend_monotonicity_witness :
    (predict_with_rules { c1Vector with weekend_commit_ratio := 1 }).1 ≤
      (predict_with_rules { c1Vector with weekend_commit_ratio := 0 }).1 ∧
    weekendFlagCount (generate_enhanced_red_flags
        { c1Vector with weekend_commit_ratio := 0 } 365 none) ≤
      weekendFlagCount (generate_enhanced_red_flags
        { c1Vector with weekend_commit_ratio := 1 } 365 none) ∧
    weekendMaxSeverity (generate_enhanced_red_flags
        { c1Vector with weekend_commit_ratio := 0 } 365 none) ≤
      weekendMaxSeverity (generate_enhanced_red_flags
        { c1Vector with weekend_commit_ratio := 1 } 365 none) :=
  c4_weekend_monotonicity c1Vector 0 1 365 none (by norm_num)

/-!
## Claim C9 — determinism of the pipeline
-/

/-- One full analysis pass: feature extraction followed by red-flag
detection, as `analyze_profile` runs them; `now` is the evaluation
time used by the recently-active test.  The embedding is a pure
function of `(snapshot, now)` — the source reads no other state and
draws no randomness. -/
noncomputable def analysis_pipeline (s : Snapshot) (now : ℤ) :
    Features ℝ × List RedFlag :=
  let features := extract_features s now
  (features, generate_enhanced_red_flags features s.account_age_days none)

/-- C9: running the pipeline twice on the same snapshot under the same
evaluation time yields identical feature vectors and identical red-flag
lists. -/
theorem c9_pipeline_deterministic (s : Snapshot) (now : ℤ) :
    (analysis_pipeline s now).1 = (analysis_pipeline s now).1 ∧
      (analysis_pipeline s now).2 = (analysis_pipeline s now).2 :=
  ⟨rfl, rfl⟩

/-!
## Claim C10 — the capped commit frequency makes two flags unreachable
-/

/-- C10: the extractor caps `commit_frequency` at 100, so the
detector's `> 100` (high) and `> 200` (extreme) commit-frequency
branches can never fire on an extracted feature vector: no run of the
pipeline emits `high_commit_frequency` or `extreme_commit_frequency`. -/
theorem c10_commit_frequency_flags_unreachable (s : Snapshot) (now : ℤ)
    (age : ℕ) (ml : Option (MlPrediction ℝ)) :
    (extract_features s now).commit_frequency ≤ 100 ∧
      (generate_enhanced_red_flags (extract_features s now) age ml).filter
        (fun r => r.id = "high_commit_frequency" ∨
          r.id = "extreme_commit_frequency") = [] := by
  have hcap : (extract_features s now).commit_frequency ≤ 100 := by
    show min 100 _ ≤ 100
    exact min_le_left _ _
  refine ⟨hcap, ?_⟩
  have h200 : ¬ ((extract_features s now).commit_frequency > 200) := by
    intro hgt
    linarith
  have h100 : ¬ ((extract_features s now).commit_frequency > 100) := by
    intro hgt
    linarith
  rcases ml with _ | p <;>
  · unfold generate_enhanced_red_flags analyze_temporal_patterns
      analyze_repository_quality analyze_social_behavior analyze_commit_patterns
      analyze_account_maturity analyze_cross_patterns
    try unfold analyze_ml_insights
    simp only [List.filter_append, h200, h100,
      apply_ite (List.filter fun r : RedFlag =>
        decide (r.id = "high_commit_frequency" ∨ r.id = "extreme_commit_frequency"))]
    simp

/-!
## Claim C7 — malformed timestamps in the temporal ratios
-/

/-- An all-empty user record. -/
def emptyUser : UserData :=
  { name := "", bio := "", location := "", company := "", blog := "", email := "",
    avatar_url := "", followers := 0, following := 0, public_repos := 0 }

/-- The weekend ratio as claim C7 states it: a record with an
unparsable timestamp is dropped from numerator AND denominator. -/
noncomputable def c7WeekendRatioAsStated (commits : List Commit) : ℝ :=
  let parsed := commits.filter fun c => c.date.isSome
  (parsed.countP fun c => is_weekend c.date : ℕ) / (max 1 parsed.length : ℕ)

/-- One parsable Saturday commit plus one commit with a malformed
timestamp. -/
def c7Snapshot : Snapshot :=
  { commits :=
      [{ date := some { weekday := 5, hour := 12, week := 1, day := 0 },
         additions := 1, deletions := 0, message := "Add feature" },
       { date := none, additions := 1, deletions := 0, message := "Add feature" }]
    repositories := []
    user := emptyUser
    account_age_days := 365 }

/-- C7 counterexample: with one Saturday commit and one malformed
commit the code computes a weekend ratio of 1/2 — the malformed record
stays in the denominator (`len(commits)`), it is only excluded from the
numerator — while the claim's drop-from-both reading gives 1. -/
theorem c7_counterexample :
    (extract_features c7Snapshot 0).weekend_commit_ratio = 1/2 ∧
      c7WeekendRatioAsStated c7Snapshot.commits = 1 ∧
      (extract_features c7Snapshot 0).weekend_commit_ratio ≠
        c7WeekendRatioAsStated c7Snapshot.commits := by
  have hv : ((5 : Fin 7) : ℕ) = 5 := rfl
  have h1 : (extract_features c7Snapshot 0).weekend_commit_ratio = 1/2 := by
    show ((List.countP _ _ : ℕ) : ℝ) / ((max 1 (List.length _) : ℕ) : ℝ) = 1/2
    simp [c7Snapshot, is_weekend, List.countP_cons, hv]
  have h2 : c7WeekendRatioAsStated c7Snapshot.commits = 1 := by
    show ((List.countP _ _ : ℕ) : ℝ) / ((max 1 (List.length _) : ℕ) : ℝ) = 1
    simp [c7Snapshot, is_weekend, List.countP_cons, List.filter_cons, hv]
  refine ⟨h1, h2, ?_⟩
  rw [h1, h2]
  norm_num

/-- A commit record whose timestamp failed to parse. -/
def malformedCommit (a d : ℕ) (m : String) : Commit :=
  { date := none, additions := a, deletions := d, message := m }

/-- C7 (amended): a commit with a malformed timestamp never aborts
extraction and is excluded from the numerators of the temporal ratios,
but it still counts in their denominator (the total commit count):
adding such a record to any snapshot leaves both weekend and night
counts unchanged while the denominator grows by one. -/
theorem c7_malformed_timestamp_denominator (s : Snapshot) (now : ℤ)
    (a d : ℕ) (m : String) :
    (extract_features
        { s with commits := malformedCommit a d m :: s.commits }
        now).weekend_commit_ratio =
      ((s.commits.countP fun x => is_weekend x.date : ℕ) : ℝ) /
        ((max 1 (s.commits.length + 1) : ℕ) : ℝ) ∧
    (extract_features
        { s with commits := malformedCommit a d m :: s.commits }
        now).night_commit_ratio =
      ((s.commits.countP fun x => is_night_time x.date : ℕ) : ℝ) /
        ((max 1 (s.commits.length + 1) : ℕ) : ℝ) := by
  constructor
  · show ((List.countP _ _ : ℕ) : ℝ) / ((max 1 (List.length _) : ℕ) : ℝ) = _
    simp [List.countP_cons, is_weekend, malformedCommit]
  · show ((List.countP _ _ : ℕ) : ℝ) / ((max 1 (List.length _) : ℕ) : ℝ) = _
    simp [List.countP_cons, is_night_time, malformedCommit]

/-!
## Claim C3 — defaults on the empty snapshot and the verdict confidence
-/

/-- The snapshot with zero commits, zero repositories, an all-empty
user and account age 0. -/
def emptySnapshot : Snapshot :=
  { commits := [], repositories := [], user := emptyUser, account_age_days := 0 }

/-- The default feature vector the extractor produces on the empty
snapshot: 0 for every count/ratio signal and 0.5 for the neutral
heuristic scores. -/
noncomputable def c3DefaultFeatures : Features ℝ :=
  { commit_frequency := 0
    weekend_commit_ratio := 0
    night_commit_ratio := 0
    original_repo_ratio := 0
    commit_size_variance := 0
    activity_consistency := 1/2
    follower_repo_ratio := 0
    follower_following_ratio := 0
    language_diversity := 0
    avg_stars_per_repo := 0
    avg_forks_per_repo := 0
    repo_activity_ratio := 0
    commit_msg_quality := 1/2
    repo_size_variance := 0
    issue_engagement := 0
    account_maturity := 0
    timing_entropy := 0
    repo_naming_quality := 1/2
    contribution_diversity := 1/2
    profile_completeness := 0
    collaboration_score := 1/2
    code_quality_score := 1/2
    burst_activity_score := 1/2
    maintenance_score := 1/2 }

/-- Extraction on the empty snapshot yields exactly the default
vector. -/
theorem extract_features_empty (now : ℤ) :
    extract_features emptySnapshot now = c3DefaultFeatures := by
  unfold extract_features
  simp [emptySnapshot, emptyUser, c3DefaultFeatures,
    calculate_activity_consistency, analyze_commit_messages,
    analyze_hourly_patterns, calculate_entropy, analyze_repo_names,
    analyze_contribution_types, calculate_profile_completeness,
    calculate_collaboration_score, estimate_code_quality,
    detect_burst_patterns, calculate_maintenance_score]
  norm_num

/-- C3 counterexample: on the empty snapshot the fallback verdict's
confidence is the fixed constant 75, which is not ≤ 50. -/
theorem c3_counterexample :
    (predict_with_rules (extract_features emptySnapshot 0)).2 = 75 ∧
      ¬ ((predict_with_rules (extract_features emptySnapshot 0)).2 ≤ 50) := by
  have h75 : (predict_with_rules (extract_features emptySnapshot 0)).2 = 75 := rfl
  exact ⟨h75, by rw [h75]; omega⟩

/-- C3 (amended): the empty snapshot produces a complete feature vector
— every one of the 24 signal keys present, in the source's order — with
each signal at its default (0 for count/ratio signals, 0.5 for the
neutral heuristic scores), and the fallback verdict's confidence is
exactly the fixed constant 75 (not ≤ 50). -/
theorem c3_empty_snapshot_defaults (now : ℤ) :
    extract_features emptySnapshot now = c3DefaultFeatures ∧
      (extract_features emptySnapshot now).toDict.map Prod.fst = featureKeys ∧
      (predict_with_rules (extract_features emptySnapshot now)).2 = 75 :=
  ⟨extract_features_empty now, rfl, rfl⟩

/-- C5 counterexample: at the scenario-2 vector with every unlisted
signal benign the fallback score is 37, not ≤ 30 as the claim states. -/
theorem c5_counterexample :
    (predict_with_rules c5Vector).1 = 37 ∧
      ¬ ((predict_with_rules c5Vector).1 ≤ 30) := by
  have h1 : (predict_with_rules c5Vector).1 = 37 := by
    rw [predict_with_rules_eq]
    show max 0 (min 100 (pyInt (100 - totalPenalty c5Vector))) = 37
    have ht : (100 : ℚ) - totalPenalty c5Vector = ((37 : ℕ) : ℚ) := by
      unfold totalPenalty weekendPenalty nightPenalty originalPenalty
        consistencyPenalty followerPenalty languagePenalty frequencyPenalty c5Vector
      norm_num
    rw [ht, clampPyInt_natCast 37 (by omega)]
    norm_num
  exact ⟨h1, by rw [h1]; omega⟩

/-!
## Claim C2 — bounds of every extracted signal

Helper bounds for each extractor, then the conjunction over the whole
feature vector.
-/

/-- A count divided by `max 1 total` is nonnegative. -/
theorem count_ratio_nonneg (a b : ℕ) : (0 : ℝ) ≤ (a : ℝ) / ((max 1 b : ℕ) : ℝ) := by
  positivity

/-- A count divided by `max 1 total` is at most 1 when the count is at
most the total. -/
theorem count_ratio_le_one {a b : ℕ} (h : a ≤ b) :
    (a : ℝ) / ((max 1 b : ℕ) : ℝ) ≤ 1 := by
  have hb : (0 : ℝ) < ((max 1 b : ℕ) : ℝ) := by
    exact_mod_cast Nat.lt_of_lt_of_le Nat.zero_lt_one (le_max_left 1 b)
  rw [div_le_one hb]
  exact_mod_cast le_trans h (le_max_right 1 b)

/-- The mean `np.mean` of a nonnegative list is nonnegative. -/
theorem npMean_nonneg {xs : List ℝ} (h : ∀ x ∈ xs, 0 ≤ x) : 0 ≤ npMean xs :=
  div_nonneg (List.sum_nonneg h) (Nat.cast_nonneg _)

/-- The variance `np.var` is nonnegative. -/
theorem npVar_nonneg (xs : List ℝ) : 0 ≤ npVar xs := by
  refine div_nonneg (List.sum_nonneg ?_) (Nat.cast_nonneg _)
  intro x hx
  rcases List.mem_map.mp hx with ⟨y, _, rfl⟩
  positivity

/-- The normalized variance `var / (mean + 1)` of a nonnegative list is
nonnegative. -/
theorem var_over_mean_succ_nonneg {xs : List ℝ} (h : ∀ x ∈ xs, 0 ≤ x) :
    0 ≤ npVar xs / (npMean xs + 1) :=
  div_nonneg (npVar_nonneg xs) (by linarith [npMean_nonneg h])

/-- The activity-consistency signal lies in [0, 1]. -/
theorem calculate_activity_consistency_bounds (commits : List Commit) :
    0 ≤ calculate_activity_consistency commits ∧
      calculate_activity_consistency commits ≤ 1 := by
  simp only [calculate_activity_consistency]
  constructor <;> split_ifs <;> norm_num

/-- The average of a nonempty list of values in [0, 1] lies in [0, 1]. -/
theorem avg_bounds {l : List ℚ} (hne : l ≠ []) (h0 : ∀ x ∈ l, 0 ≤ x)
    (h1 : ∀ x ∈ l, x ≤ 1) :
    0 ≤ l.sum / (l.length : ℚ) ∧ l.sum / (l.length : ℚ) ≤ 1 := by
  have hl : (0 : ℚ) < (l.length : ℚ) := by
    exact_mod_cast List.length_pos.mpr hne
  constructor
  · exact div_nonneg (List.sum_nonneg h0) hl.le
  · rw [div_le_one hl]
    calc l.sum ≤ l.length • (1 : ℚ) := List.sum_le_card_nsmul l 1 h1
    _ = l.length := by simp

/-- The sum of a list of values in [0, 1] divided by `max 1 length`
lies in [0, 1]. -/
theorem avgmax_bounds {l : List ℚ} (h0 : ∀ x ∈ l, 0 ≤ x) (h1 : ∀ x ∈ l, x ≤ 1) :
    0 ≤ l.sum / ((max 1 l.length : ℕ) : ℚ) ∧
      l.sum / ((max 1 l.length : ℕ) : ℚ) ≤ 1 := by
  have hb : (0 : ℚ) < ((max 1 l.length : ℕ) : ℚ) := by
    exact_mod_cast Nat.lt_of_lt_of_le Nat.zero_lt_one (le_max_left 1 l.length)
  constructor
  · exact div_nonneg (List.sum_nonneg h0) hb.le
  · rw [div_le_one hb]
    calc l.sum ≤ l.length • (1 : ℚ) := List.sum_le_card_nsmul l 1 h1
    _ = (l.length : ℚ) := by simp
    _ ≤ ((max 1 l.length : ℕ) : ℚ) := by exact_mod_cast le_max_right 1 l.length

/-- Each per-message score lies in [0, 1]. -/
theorem messageScore_bounds (m : String) :
    0 ≤ messageScore m ∧ messageScore m ≤ 1 := by
  unfold messageScore
  split_ifs <;> norm_num

/-- The commit-message quality signal lies in [0, 1]. -/
theorem analyze_commit_messages_bounds (commits : List Commit) :
    0 ≤ analyze_commit_messages commits ∧ analyze_commit_messages commits ≤ 1 := by
  simp only [analyze_commit_messages]
  split_ifs with h
  · norm_num
  · have := avgmax_bounds (l := ((commits.map fun c => c.message.trim).filter
      fun m => m ≠ "").map messageScore)
      (fun x hx => by
        rcases List.mem_map.mp hx with ⟨m, _, rfl⟩
        exact (messageScore_bounds m).1)
      (fun x hx => by
        rcases List.mem_map.mp hx with ⟨m, _, rfl⟩
        exact (messageScore_bounds m).2)
    simpa [List.length_map] using this

/-- Each per-repository naming score lies in [0, 1]. -/
theorem repoNameScore_bounds (r : Repo) :
    0 ≤ repoNameScore r ∧ repoNameScore r ≤ 1 := by
  simp only [repoNameScore]
  split_ifs <;> norm_num

/-- The repo-naming quality signal lies in [0, 1]. -/
theorem analyze_repo_names_bounds (repos : List Repo) :
    0 ≤ analyze_repo_names repos ∧ analyze_repo_names repos ≤ 1 := by
  unfold analyze_repo_names
  split_ifs with h
  · norm_num
  · have := avg_bounds (l := repos.map repoNameScore)
      (by simpa using h)
      (fun x hx => by
        rcases List.mem_map.mp hx with ⟨r, _, rfl⟩
        exact (repoNameScore_bounds r).1)
      (fun x hx => by
        rcases List.mem_map.mp hx with ⟨r, _, rfl⟩
        exact (repoNameScore_bounds r).2)
    simpa [List.length_map] using this

/-- The contribution-diversity signal lies in [0, 1]. -/
theorem analyze_contribution_types_bounds (commits : List Commit) :
    0 ≤ analyze_contribution_types commits ∧
      analyze_contribution_types commits ≤ 1 := by
  unfold analyze_contribution_types
  split_ifs with h
  · norm_num
  · constructor
    · positivity
    · rw [div_le_one (by norm_num)]
      have hc := List.countP_le_length
        (l := List.finRange 6)
        (p := fun i => commits.any fun c => commitCategory c.message = some i)
      have hl : (List.finRange 6).length = 6 := List.length_finRange 6
      exact_mod_cast le_trans hc (le_of_eq hl)

/-- The profile-completeness signal lies in [0, 1]. -/
theorem calculate_profile_completeness_bounds (user : UserData) :
    0 ≤ calculate_profile_completeness user ∧
      calculate_profile_completeness user ≤ 1 := by
  unfold calculate_profile_completeness
  split_ifs <;> norm_num

/-- Each per-repository collaboration indicator is nonnegative. -/
theorem collabIndicator_nonneg (r : Repo) : 0 ≤ collabIndicator r := by
  unfold collabIndicator
  split_ifs <;> norm_num

/-- The collaboration signal lies in [0, 1]. -/
theorem calculate_collaboration_score_bounds (repos : List Repo) :
    0 ≤ calculate_collaboration_score repos ∧
      calculate_collaboration_score repos ≤ 1 := by
  unfold calculate_collaboration_score
  split_ifs with h
  · norm_num
  · refine ⟨le_min (by norm_num) ?_, min_le_left _ _⟩
    have hl : (0 : ℚ) < (repos.length : ℚ) := by
      exact_mod_cast List.length_pos.mpr h
    refine div_nonneg (List.sum_nonneg ?_) hl.le
    intro x hx
    rcases List.mem_map.mp hx with ⟨r, _, rfl⟩
    exact collabIndicator_nonneg r

/-- The code-quality signal lies in [0, 1]. -/
theorem estimate_code_quality_bounds (repos : List Repo) (commits : List Commit) :
    0 ≤ estimate_code_quality repos commits ∧
      estimate_code_quality repos commits ≤ 1 := by
  simp only [estimate_code_quality]
  split_ifs <;> norm_num

/-- The burst-activity signal lies in [0, 1]. -/
theorem detect_burst_patterns_bounds (commits : List Commit) :
    0 ≤ detect_burst_patterns commits ∧ detect_burst_patterns commits ≤ 1 := by
  simp only [detect_burst_patterns]
  split_ifs with h1 h2
  · norm_num
  · norm_num
  · exact ⟨le_max_left 0 _, max_le (by norm_num) (sub_le_self 1 (by positivity))⟩

/-- Each per-repository maintenance indicator lies in [0, 1]. -/
theorem maintenanceIndicator_bounds (r : Repo) (now : ℤ) :
    0 ≤ maintenanceIndicator r now ∧ maintenanceIndicator r now ≤ 1 := by
  unfold maintenanceIndicator
  split_ifs <;> norm_num

/-- The maintenance signal lies in [0, 1]. -/
theorem calculate_maintenance_score_bounds (repos : List Repo) (now : ℤ) :
    0 ≤ calculate_maintenance_score repos now ∧
      calculate_maintenance_score repos now ≤ 1 := by
  unfold calculate_maintenance_score
  split_ifs with h
  · norm_num
  · have := avg_bounds (l := repos.map (maintenanceIndicator · now))
      (by simpa using h)
      (fun x hx => by
        rcases List.mem_map.mp hx with ⟨r, _, rfl⟩
        exact (maintenanceIndicator_bounds r now).1)
      (fun x hx => by
        rcases List.mem_map.mp hx with ⟨r, _, rfl⟩
        exact (maintenanceIndicator_bounds r now).2)
    simpa [List.length_map] using this

/-- Dropping the zero buckets of a histogram keeps its sum. -/
theorem filter_pos_sum (dist : List ℕ) :
    (dist.filter fun c => 0 < c).sum = dist.sum := by
  induction dist with
  | nil => rfl
  | cons a t ih =>
    by_cases ha : 0 < a
    · simp [List.filter_cons, ha, ih]
    · have ha0 : a = 0 := by omega
      simp [List.filter_cons, ha, ha0, ih]

/-- A list-map sum as a sum over `Fin`. -/
theorem list_map_sum_eq_fin_sum (l : List ℕ) (f : ℕ → ℝ) :
    (l.map f).sum = ∑ i : Fin l.length, f (l.get i) := by
  rw [← List.ofFn_get_eq_map, List.sum_ofFn]

/-- The normalized timing entropy is nonnegative. -/
theorem calculate_entropy_nonneg (dist : List ℕ) : 0 ≤ calculate_entropy dist := by
  simp only [calculate_entropy]
  split_ifs with h
  · exact le_refl 0
  · apply div_nonneg
    · apply List.sum_nonneg
      intro x hx
      rcases List.mem_map.mp hx with ⟨c, hc, rfl⟩
      have hc0 : 0 < c := by simpa using List.of_mem_filter hc
      have hcT : c ≤ dist.sum := List.le_sum_of_mem (List.mem_of_mem_filter hc)
      have hT : 0 < dist.sum := Nat.pos_of_ne_zero h
      have hp0 : (0 : ℝ) < (c : ℝ) / (dist.sum : ℝ) :=
        div_pos (by exact_mod_cast hc0) (by exact_mod_cast hT)
      have hp1 : (c : ℝ) / (dist.sum : ℝ) ≤ 1 := by
        rw [div_le_one (by exact_mod_cast hT)]
        exact_mod_cast hcT
      have hlog : Real.logb 2 ((c : ℝ) / (dist.sum : ℝ)) ≤ 0 :=
        Real.logb_nonpos one_lt_two hp0.le hp1
      exact neg_nonneg.mpr (mul_nonpos_of_nonneg_of_nonpos hp0.le hlog)
    · exact (Real.logb_pos one_lt_two (by norm_num)).le

/-- The normalized timing entropy of a histogram with at most 24
buckets is at most 1 (Jensen's inequality for the concave `log`). -/
theorem calculate_entropy_le_one (dist : List ℕ) (hlen : dist.length ≤ 24) :
    calculate_entropy dist ≤ 1 := by
  simp only [calculate_entropy]
  split_ifs with h
  · norm_num
  · have hL : (0 : ℝ) < Real.logb 2 24 := Real.logb_pos one_lt_two (by norm_num)
    rw [div_le_one hL]
    have hT : 0 < dist.sum := Nat.pos_of_ne_zero h
    have hTR : (0 : ℝ) < (dist.sum : ℝ) := by exact_mod_cast hT
    have hsum := filter_pos_sum dist
    have hpos : ∀ c ∈ dist.filter fun c => 0 < c, 0 < c := by
      intro c hc
      simpa using List.of_mem_filter hc
    have hne : (dist.filter fun c => 0 < c) ≠ [] := by
      intro hnil
      rw [hnil] at hsum
      exact h hsum.symm
    rw [list_map_sum_eq_fin_sum]
    set l := dist.filter fun c => 0 < c with hldef
    set w : Fin l.length → ℝ := fun i => (l.get i : ℝ) / (dist.sum : ℝ) with hwdef
    have hwpos : ∀ i : Fin l.length, 0 < w i := by
      intro i
      exact div_pos (by exact_mod_cast hpos _ (List.get_mem l i.1 i.2)) hTR
    have hone : ∑ i : Fin l.length, w i = 1 := by
      rw [hwdef]
      rw [← Finset.sum_div]
      rw [show ∑ i : Fin l.length, ((l.get i : ℕ) : ℝ) = ((l.sum : ℕ) : ℝ) from by
        rw [Nat.cast_list_sum, list_map_sum_eq_fin_sum]]
      rw [hsum]
      exact div_self (ne_of_gt hTR)
    have hterm : ∀ i : Fin l.length,
        -((l.get i : ℝ) / (dist.sum : ℝ) *
            Real.logb 2 ((l.get i : ℝ) / (dist.sum : ℝ))) =
          w i * Real.log ((w i)⁻¹) / Real.log 2 := by
      intro i
      rw [hwdef]
      simp only [Real.logb, Real.log_inv]
      ring
    calc ∑ i : Fin l.length,
        -((l.get i : ℝ) / (dist.sum : ℝ) *
          Real.logb 2 ((l.get i : ℝ) / (dist.sum : ℝ)))
        = ∑ i : Fin l.length, w i * Real.log ((w i)⁻¹) / Real.log 2 :=
          Finset.sum_congr rfl fun i _ => hterm i
      _ = (∑ i : Fin l.length, w i * Real.log ((w i)⁻¹)) / Real.log 2 :=
          (Finset.sum_div _ _ _).symm
      _ ≤ Real.log (l.length : ℝ) / Real.log 2 := by
          refine (div_le_div_right (Real.log_pos one_lt_two)).mpr ?_
          have hconc : ConcaveOn ℝ (Set.Ioi 0) Real.log :=
            strictConcaveOn_log_Ioi.concaveOn
          have h0 : ∀ i ∈ (Finset.univ : Finset (Fin l.length)), 0 ≤ w i :=
            fun i _ => (hwpos i).le
          have hmem : ∀ i ∈ (Finset.univ : Finset (Fin l.length)),
              (w i)⁻¹ ∈ Set.Ioi (0 : ℝ) :=
            fun i _ => Set.mem_Ioi.mpr (inv_pos.mpr (hwpos i))
          have j := hconc.le_map_sum h0 hone hmem
          simp only [smul_eq_mul] at j
          have hsum1 : ∑ i : Fin l.length, w i * (w i)⁻¹ = (l.length : ℝ) := by
            rw [Finset.sum_congr rfl fun i _ => mul_inv_cancel₀ (ne_of_gt (hwpos i))]
            simp
          rw [hsum1] at j
          exact j
      _ = Real.logb 2 (l.length : ℝ) := Real.log_div_log
      _ ≤ Real.logb 2 24 := by
          apply Real.logb_le_logb_of_le one_lt_two
          · exact_mod_cast List.length_pos.mpr hne
          · exact_mod_cast le_trans (List.length_filter_le _ dist) hlen

/-- C2: every signal of every extracted feature vector lies within its
documented bound — each ratio-valued or quality/score signal in [0, 1],
and each capped signal at most its cap. -/
theorem c2_feature_bounds (s : Snapshot) (now : ℤ) :
    (0 ≤ (extract_features s now).weekend_commit_ratio ∧
      (extract_features s now).weekend_commit_ratio ≤ 1) ∧
    (0 ≤ (extract_features s now).night_commit_ratio ∧
      (extract_features s now).night_commit_ratio ≤ 1) ∧
    (0 ≤ (extract_features s now).original_repo_ratio ∧
      (extract_features s now).original_repo_ratio ≤ 1) ∧
    (0 ≤ (extract_features s now).repo_activity_ratio ∧
      (extract_features s now).repo_activity_ratio ≤ 1) ∧
    (0 ≤ (extract_features s now).activity_consistency ∧
      (extract_features s now).activity_consistency ≤ 1) ∧
    (0 ≤ (extract_features s now).timing_entropy ∧
      (extract_features s now).timing_entropy ≤ 1) ∧
    (0 ≤ (extract_features s now).commit_size_variance ∧
      (extract_features s now).commit_size_variance ≤ 1) ∧
    (0 ≤ (extract_features s now).repo_size_variance ∧
      (extract_features s now).repo_size_variance ≤ 1) ∧
    (0 ≤ (extract_features s now).commit_msg_quality ∧
      (extract_features s now).commit_msg_quality ≤ 1) ∧
    (0 ≤ (extract_features s now).repo_naming_quality ∧
      (extract_features s now).repo_naming_quality ≤ 1) ∧
    (0 ≤ (extract_features s now).contribution_diversity ∧
      (extract_features s now).contribution_diversity ≤ 1) ∧
    (0 ≤ (extract_features s now).profile_completeness ∧
      (extract_features s now).profile_completeness ≤ 1) ∧
    (0 ≤ (extract_features s now).collaboration_score ∧
      (extract_features s now).collaboration_score ≤ 1) ∧
    (0 ≤ (extract_features s now).code_quality_score ∧
      (extract_features s now).code_quality_score ≤ 1) ∧
    (0 ≤ (extract_features s now).burst_activity_score ∧
      (extract_features s now).burst_activity_score ≤ 1) ∧
    (0 ≤ (extract_features s now).maintenance_score ∧
      (extract_features s now).maintenance_score ≤ 1) ∧
    (extract_features s now).commit_frequency ≤ 100 ∧
    (extract_features s now).follower_repo_ratio ≤ 10 ∧
    (extract_features s now).follower_following_ratio ≤ 10 ∧
    (extract_features s now).language_diversity ≤ 15 ∧
    (extract_features s now).avg_stars_per_repo ≤ 100 ∧
    (extract_features s now).avg_forks_per_repo ≤ 50 ∧
    (extract_features s now).issue_engagement ≤ 20 ∧
    (extract_features s now).account_maturity ≤ 1 := by
  unfold extract_features
  dsimp only
  refine ⟨⟨?_, ?_⟩, ⟨?_, ?_⟩, ⟨?_, ?_⟩, ⟨?_, ?_⟩, ?_, ⟨?_, ?_⟩, ⟨?_, ?_⟩,
    ⟨?_, ?_⟩, ⟨?_, ?_⟩, ⟨?_, ?_⟩, ⟨?_, ?_⟩, ⟨?_, ?_⟩, ⟨?_, ?_⟩, ⟨?_, ?_⟩,
    ?_, ⟨?_, ?_⟩, ?_, ?_, ?_, ?_, ?_, ?_, ?_, ?_⟩
  · exact count_ratio_nonneg _ _
  · exact count_ratio_le_one (List.countP_le_length _)
  · exact count_ratio_nonneg _ _
  · exact count_ratio_le_one (List.countP_le_length _)
  · exact count_ratio_nonneg _ _
  · exact count_ratio_le_one (List.countP_le_length _)
  · exact count_ratio_nonneg _ _
  · exact count_ratio_le_one (List.countP_le_length _)
  · exact calculate_activity_consistency_bounds s.commits
  · exact calculate_entropy_nonneg _
  · exact calculate_entropy_le_one _ (by simp [analyze_hourly_patterns])
  · refine le_min (by norm_num) ?_
    split_ifs with hcs
    · refine var_over_mean_succ_nonneg ?_
      intro x hx
      rcases List.mem_map.mp hx with ⟨c, _, rfl⟩
      positivity
    · exact le_refl 0
  · exact min_le_left _ _
  · refine le_min (by norm_num) ?_
    split_ifs with hrs
    · refine var_over_mean_succ_nonneg ?_
      intro x hx
      have hx' := List.of_mem_filter hx
      simp only [decide_eq_true_eq] at hx'
      linarith
    · exact le_refl 0
  · exact min_le_left _ _
  · exact_mod_cast (analyze_commit_messages_bounds s.commits).1
  · exact_mod_cast (analyze_commit_messages_bounds s.commits).2
  · exact_mod_cast (analyze_repo_names_bounds s.repositories).1
  · exact_mod_cast (analyze_repo_names_bounds s.repositories).2
  · exact_mod_cast (analyze_contribution_types_bounds s.commits).1
  · exact_mod_cast (analyze_contribution_types_bounds s.commits).2
  · exact_mod_cast (calculate_profile_completeness_bounds s.user).1
  · exact_mod_cast (calculate_profile_completeness_bounds s.user).2
  · exact_mod_cast (calculate_collaboration_score_bounds s.repositories).1
  · exact_mod_cast (calculate_collaboration_score_bounds s.repositories).2
  · exact_mod_cast (estimate_code_quality_bounds s.repositories s.commits).1
  · exact_mod_cast (estimate_code_quality_bounds s.repositories s.commits).2
  · exact detect_burst_patterns_bounds s.commits
  · exact_mod_cast (calculate_maintenance_score_bounds s.repositories now).1
  · exact_mod_cast (calculate_maintenance_score_bounds s.repositories now).2
  · exact min_le_left _ _
  · exact min_le_left _ _
  · exact min_le_left _ _
  · exact min_le_left _ _
  · exact min_le_left _ _
  · exact min_le_left _ _
  · exact min_le_left _ _
  · exact min_le_left _ _
